import Mathlib

/-!
Shallow embedding of `src/gdal/ogr/ogr_geocoding.cpp` (the OGR geocoding
client: session creation, URL-keyed response cache, per-service rate
limiter, request executor and XML response decoder), together with the
theorems settling the spec claims about it.

External collaborators of the file (the CPL string/XML helpers, the OGR
layer backend, the HTTP transport, the WKT parser) are modelled either as
explicit environment parameters or as small definitions whose doc comment
says what they stand for; everything else is translated statement by
statement from the C source.
-/

namespace GdalGeocode

/-- ASCII lower-casing of one character, as the CPL case-insensitive
comparisons use. -/
def lowerChar (c : Char) : Char :=
  if 'A' ≤ c ∧ c ≤ 'Z' then Char.ofNat (c.toNat + 32) else c

/-- ASCII lower-casing of a string. -/
def lowerStr (s : String) : String := String.mk (s.data.map lowerChar)

/-- Case-insensitive string equality: the CPL `EQUAL` macro. -/
def ciEq (a b : String) : Bool := lowerStr a == lowerStr b

/-- The characters after the last dot of a name, if any. -/
def afterLastDot : List Char → Option (List Char)
  | [] => none
  | '.' :: rest => some ((afterLastDot rest).getD rest)
  | _ :: rest => afterLastDot rest

/-- Modelled from the spec: `CPLGetExtension` (in cpl_conv, outside the staged
source) yields the text after the last dot of a filename, empty when the name
has no dot. -/
def CPLGetExtension (fn : String) : String :=
  String.mk ((afterLastDot fn.data).getD [])

/-- The scan loop of `OGRGeocodeHasStringValidFormat`
(`src/gdal/ogr/ogr_geocoding.cpp:93-126`), mirroring the C iterator: on
`%%` skip both characters, on `%s` record the placeholder (failing if one
was already found), on any other `%` (including a trailing one) fail; at
the end of the string succeed iff a placeholder was found. In the `%s`
case the C iterator advances one character and re-reads the `s` as an
ordinary character on the next turn of the loop, which is the same as
skipping both characters here. -/
def hasValidFormatLoop : List Char → Bool → Bool
  | [], bFoundPctS => bFoundPctS
  | '%' :: rest, bFoundPctS =>
    match rest with
    | '%' :: rest2 => hasValidFormatLoop rest2 bFoundPctS
    | 's' :: rest2 =>
        if bFoundPctS then false
        else hasValidFormatLoop rest2 true
    | _ => false
  | _ :: rest, bFoundPctS => hasValidFormatLoop rest bFoundPctS

/-- `OGRGeocodeHasStringValidFormat` (`src/gdal/ogr/ogr_geocoding.cpp:93`):
checks that the query template has one and only one occurrence of `%s`. -/
def OGRGeocodeHasStringValidFormat (pszQueryTemplate : String) : Bool :=
  hasValidFormatLoop pszQueryTemplate.data false

/-- Spec-side token of a URL template: a literal character, an escaped
literal percent (`%%`), or the single-character placeholder (`%s`). -/
inductive FmtTok where
  | lit (c : Char)
  | pctLit
  | placeholder
deriving DecidableEq, Repr

/-- Spec-side tokenization of a template: every `%` must begin either the
escaped literal `%%` or the placeholder `%s`; otherwise the template is
malformed (`none`). -/
def tokenizeFmt : List Char → Option (List FmtTok)
  | [] => some []
  | '%' :: '%' :: rest => (tokenizeFmt rest).map (FmtTok.pctLit :: ·)
  | '%' :: 's' :: rest => (tokenizeFmt rest).map (FmtTok.placeholder :: ·)
  | '%' :: _ => none
  | c :: rest => (tokenizeFmt rest).map (FmtTok.lit c :: ·)

/-- The spec's validity notion for a query template: all percent escapes are
well formed and the placeholder occurs exactly once. -/
def specValidTemplate (s : String) : Bool :=
  match tokenizeFmt s.data with
  | some toks => toks.count FmtTok.placeholder == 1
  | none => false

/-- Node types of the CPL mini-XML tree (`CPLXMLNode::eType`). -/
inductive CXT where
  | element | text | attribute | comment | literal
deriving DecidableEq, Repr

/-- A parsed XML node: type, value (tag name, attribute name or text) and
child list; attributes and text content are children, as in cpl_minixml. -/
inductive XMLNode where
  | node (eType : CXT) (pszValue : String) (children : List XMLNode)

/-- The node's type. -/
def XMLNode.eType : XMLNode → CXT
  | .node t _ _ => t

/-- The node's value (tag or attribute name, or text). -/
def XMLNode.pszValue : XMLNode → String
  | .node _ v _ => v

/-- The node's children. -/
def XMLNode.children : XMLNode → List XMLNode
  | .node _ _ ch => ch

/-- Modelled from the spec: `CPLGetXMLValue(node, NULL, NULL)` (cpl_minixml,
outside the staged source) — for an attribute node, the value carried by its
text child; for an element node, the value of its single text child once
attribute children are skipped; otherwise nothing. -/
def getXMLValue : XMLNode → Option String
  | .node .attribute _ ch =>
    match ch with
    | .node .text v _ :: _ => some v
    | _ => none
  | .node .element _ ch =>
    match ch.dropWhile (fun c => decide (c.eType = CXT.attribute)) with
    | [.node .text v _] => some v
    | _ => none
  | _ => none

mutual

/-- Modelled from the spec: `CPLSearchXMLNode(root, "=name")` (cpl_minixml,
outside the staged source) — depth-first search for an element (or
attribute) node whose value matches `name` case-insensitively, looking at
the node itself and then its descendants. -/
def searchXMLNode (name : String) : XMLNode → Option XMLNode
  | .node t v ch =>
    if (t = CXT.element ∨ t = CXT.attribute) ∧ ciEq v name then
      some (.node t v ch)
    else searchXMLList name ch

/-- Depth-first search over a sibling list, first match wins. -/
def searchXMLList (name : String) : List XMLNode → Option XMLNode
  | [] => none
  | c :: rest =>
    match searchXMLNode name c with
    | some r => some r
    | none => searchXMLList name rest

end

/-- OGR field types used by the decoder (`OFTString`, `OFTInteger`,
`OFTReal`). -/
inductive OFT where
  | string | integer | real
deriving DecidableEq, Repr

/-- An `OGRFieldDefn`: field name and type. -/
structure FieldDefn where
  name : String
  fieldType : OFT
deriving DecidableEq, Repr

/-- A geometry value: either the point the decoder synthesizes from the
`lon`/`lat` attributes, or a value produced by the external WKT parser
(`OGRGeometryFactory::createFromWkt`), identified by the text it parsed. -/
inductive Geometry where
  | point (x y : ℚ)
  | fromWkt (wkt : String)
deriving DecidableEq, Repr

/-- An `OGRFeature` of the decoded layer: the string fields that were set
(keyed by field name — field names are unique in the schema) and the
optional geometry. -/
structure Feature where
  fields : List (String × String)
  geometry : Option Geometry
deriving DecidableEq, Repr

/-- The decoded in-memory layer: discovered schema plus features in
document order. -/
structure ResultLayer where
  schema : List FieldDefn
  features : List Feature
deriving DecidableEq, Repr

/-- `OGRFeatureDefn::GetFieldIndex`: index of the first field whose name
matches case-insensitively, `none` standing for the C `-1`. -/
def getFieldIndex (defs : List FieldDefn) (name : String) : Option Nat :=
  defs.findIdx? (fun f => ciEq f.name name)

/-- `OGRFeature::SetField` at the schema slot named `name`: overwrite the
stored value if the slot was already set, otherwise record it. -/
def setFieldByName (fs : List (String × String)) (name v : String) :
    List (String × String) :=
  if fs.any (fun p => ciEq p.1 name) then
    fs.map (fun p => if ciEq p.1 name then (p.1, v) else p)
  else fs ++ [(name, v)]

/-- State of the first pass over one place element
(`src/gdal/ogr/ogr_geocoding.cpp:473-511`): the growing schema and the
`bFoundLat`/`dfLat`/`bFoundLon`/`dfLon` locals. -/
structure PlaceScan where
  schema : List FieldDefn
  bFoundLat : Bool
  dfLat : ℚ
  bFoundLon : Bool
  dfLon : ℚ
deriving DecidableEq, Repr

/-- The numeric-string reader `CPLAtofM` and the WKT parser are external;
the decoder takes them as parameters. -/
structure DecodeEnv where
  atof : String → ℚ
  parseWkt : String → Option Geometry

/-- One child of the first iteration over a place
(`src/gdal/ogr/ogr_geocoding.cpp:478-510`): add a field for a child name
not yet in the schema and different from `geotext`; `place_rank` becomes
integer, `lat`/`lon` become real and, when their value is present, set the
`bFoundLat`/`bFoundLon` flags and record the parsed coordinate. -/
def firstPassStep (env : DecodeEnv) (psChild : XMLNode) (st : PlaceScan) :
    PlaceScan :=
  let pszName := psChild.pszValue
  let pszVal := getXMLValue psChild
  if getFieldIndex st.schema pszName = none ∧ pszName ≠ "geotext" then
    if pszName = "place_rank" then
      { st with schema := st.schema ++ [⟨pszName, OFT.integer⟩] }
    else if pszName = "lat" then
      let st1 :=
        match pszVal with
        | some v => { st with bFoundLat := true, dfLat := env.atof v }
        | none => st
      { st1 with schema := st1.schema ++ [⟨pszName, OFT.real⟩] }
    else if pszName = "lon" then
      let st1 :=
        match pszVal with
        | some v => { st with bFoundLon := true, dfLon := env.atof v }
        | none => st
      { st1 with schema := st1.schema ++ [⟨pszName, OFT.real⟩] }
    else { st with schema := st.schema ++ [⟨pszName, OFT.string⟩] }
  else st

/-- First iteration over the children of a place
(`src/gdal/ogr/ogr_geocoding.cpp:477-511`). -/
def placeFirstPass (env : DecodeEnv) : List XMLNode → PlaceScan → PlaceScan
  | [], st => st
  | psChild :: rest, st => placeFirstPass env rest (firstPassStep env psChild st)

/-- One child of the second iteration over a place
(`src/gdal/ogr/ogr_geocoding.cpp:516-539`): set the matching schema field
when the child's value is present; for a `geotext` child that matches no
field, parse its value as WKT and attach the geometry when parsing
succeeds. -/
def secondPassStep (env : DecodeEnv) (schema : List FieldDefn)
    (psChild : XMLNode) (f : Feature) : Feature :=
  let pszName := psChild.pszValue
  let pszVal := getXMLValue psChild
  match getFieldIndex schema pszName with
  | some _ =>
    match pszVal with
    | some v => { f with fields := setFieldByName f.fields pszName v }
    | none => f
  | none =>
    if pszName = "geotext" then
      match pszVal with
      | some pszWKT =>
        match env.parseWkt pszWKT with
        | some g => { f with geometry := some g }
        | none => f
      | none => f
    else f

/-- Second iteration over the children of a place
(`src/gdal/ogr/ogr_geocoding.cpp:513-539`). -/
def placeSecondPass (env : DecodeEnv) (schema : List FieldDefn) :
    List XMLNode → Feature → Feature
  | [], f => f
  | psChild :: rest, f =>
    placeSecondPass env schema rest (secondPassStep env schema psChild f)

/-- Decode one place element (`src/gdal/ogr/ogr_geocoding.cpp:470-547`):
first pass grows the schema, second pass fills the feature, and if no
explicit geometry was attached but both `lon` and `lat` were captured the
point `(lon, lat)` is synthesized. -/
def processPlace (env : DecodeEnv) (schema : List FieldDefn) (psPlace : XMLNode) :
    List FieldDefn × Feature :=
  let st := placeFirstPass env psPlace.children ⟨schema, false, 0, false, 0⟩
  let f := placeSecondPass env st.schema psPlace.children ⟨[], none⟩
  let f :=
    if f.geometry = none ∧ st.bFoundLon ∧ st.bFoundLat then
      { f with geometry := some (Geometry.point st.dfLon st.dfLat) }
    else f
  (st.schema, f)

/-- The loop over the children of `searchresults`
(`src/gdal/ogr/ogr_geocoding.cpp:467-550`): one feature per child that is
an element named `place` (exact `strcmp` match), in document order, the
schema threaded left to right. -/
def processPlaces (env : DecodeEnv) :
    List XMLNode → List FieldDefn → List FieldDefn × List Feature
  | [], schema => (schema, [])
  | psPlace :: rest, schema =>
    if psPlace.eType = CXT.element ∧ psPlace.pszValue = "place" then
      let sf := processPlace env schema psPlace
      let rec' := processPlaces env rest sf.1
      (rec'.1, sf.2 :: rec'.2)
    else processPlaces env rest schema

/-- `OGRGeocodeBuildLayer` (`src/gdal/ogr/ogr_geocoding.cpp:453-554`) over
the already-parsed body: `none` when XML parsing failed (`parsed = none`)
or when no `searchresults` element is found; otherwise the layer decoded
from the place children of that element. -/
def OGRGeocodeBuildLayer (env : DecodeEnv) (parsed : Option XMLNode) :
    Option ResultLayer :=
  match parsed with
  | none => none
  | some psRoot =>
    match searchXMLNode "searchresults" psRoot with
    | none => none
    | some psSearchResults =>
      let sf := processPlaces env psSearchResults.children []
      some ⟨sf.1, sf.2⟩

/-- The hard-coded OSM Nominatim URL template
(`src/gdal/ogr/ogr_geocoding.cpp:61`). -/
def OSM_NOMINATIM_QUERY : String :=
  "http://nominatim.openstreetmap.org/search?q=%s&format=xml&polygon_text=1&addressdetails=1"

/-- The hard-coded MapQuest Nominatim URL template
(`src/gdal/ogr/ogr_geocoding.cpp:62`). -/
def MAPQUEST_NOMINATIM_QUERY : String :=
  "http://open.mapquestapi.com/nominatim/v1/search.php?q=%s&format=xml&addressdetails=1"

/-- Default cache file names (`src/gdal/ogr/ogr_geocoding.cpp:65-66`). -/
def DEFAULT_CACHE_SQLITE : String := "ogr_geocode_cache.sqlite"

/-- The CSV fallback cache file name. -/
def DEFAULT_CACHE_CSV : String := "ogr_geocode_cache.csv"

/-- The cache layer name (`src/gdal/ogr/ogr_geocoding.cpp:64`). -/
def CACHE_LAYER_NAME : String := "ogr_geocode_cache"

/-- `CPLSPrintf(template, arg)` restricted to what the validated templates
use: `%%` prints a literal percent and `%s` prints `arg`; other characters
are copied. -/
def sprintfPct (fmt : String) (arg : String) : String :=
  String.mk (go fmt.data)
where
  /-- Character-level substitution loop. -/
  go : List Char → List Char
    | [] => []
    | '%' :: '%' :: rest => '%' :: go rest
    | '%' :: 's' :: rest => arg.data ++ go rest
    | c :: rest => c :: go rest

/-- The CPL `EQUALN(s, "PG:", 3)` test: does the string start,
case-insensitively, with `PG:`. -/
def startsWithPG (s : String) : Bool :=
  match (lowerStr s).data with
  | 'p' :: 'g' :: ':' :: _ => true
  | _ => false

/-- Modelled from the spec: `CSLTestBoolean` (cpl_string, outside the staged
source) — true exactly for the values YES, TRUE, ON and 1, compared
case-insensitively. -/
def testBoolean (v : String) : Bool :=
  ciEq v "YES" || ciEq v "TRUE" || ciEq v "ON" || ciEq v "1"

/-- An opened cache datasource, abstracted to the one observable the
geocoding code asks of it: whether the `ogr_geocode_cache` layer with its
`url` and `blob` fields is usable. -/
structure DataSource where
  hasCacheLayer : Bool
deriving DecidableEq, Repr

/-- `_OGRGeocodingSessionHS` (`src/gdal/ogr/ogr_geocoding.cpp:43-55`). -/
structure Session where
  pszCacheFilename : String
  pszGeocodingService : String
  pszEmail : Option String
  pszApplication : String
  pszQueryTemplate : String
  pszExtraQueryParameters : Option String
  bReadCache : Bool
  bWriteCache : Bool
  dfDelayBetweenQueries : ℚ
  poDS : Option DataSource
deriving DecidableEq, Repr

/-- The external world the geocoding code runs against: the OGR driver
registry and datasource backends, the XML/WKT parsers, URL escaping, and
the HTTP transport with a wall clock. `fetchResult u = none` is a failed
fetch (`CPLHTTPResult* == NULL`), `some none` a result without a body,
`some (some b)` a body. `fetchDuration` is the wall-clock time a fetch of
that URL takes. -/
structure OGREnv where
  openDS : String → Option DataSource
  driverAvailable : String → Bool
  createDS : String → Option DataSource
  createLayerOk : Bool
  parseXML : String → Option XMLNode
  decode : DecodeEnv
  escapeURL : String → String
  fetchResult : String → Option (Option String)
  fetchDuration : String → ℚ

/-- The process-wide mutable state: the wall clock, the two per-service
last-fetch timestamps (`dfLastQueryTimeStampOSMNominatim`,
`dfLastQueryTimeStampMapQuestNominatim`,
`src/gdal/ogr/ogr_geocoding.cpp:58-59`) and the rows of the cache store. -/
structure World where
  now : ℚ
  lastOSM : ℚ
  lastMapQuest : ℚ
  cacheData : List (String × String)
deriving DecidableEq, Repr

/-- The two built-in rate-limited service kinds. -/
inductive ServiceKind where
  | osm | mapquest
deriving DecidableEq, Repr

/-- The per-service last-fetch timestamp. -/
def World.getLast (w : World) : ServiceKind → ℚ
  | .osm => w.lastOSM
  | .mapquest => w.lastMapQuest

/-- Record a per-service last-fetch timestamp. -/
def World.setLast (w : World) : ServiceKind → ℚ → World
  | .osm, t => { w with lastOSM := t }
  | .mapquest, t => { w with lastMapQuest := t }

/-- The `pdfLastQueryTime` selection of `OGRGeocode`
(`src/gdal/ogr/ogr_geocoding.cpp:640-644`): only the two built-in service
identifiers, compared case-insensitively, have rate-limit state. -/
def rateLimitedService (service : String) : Option ServiceKind :=
  if ciEq service "OSM_NOMINATIM" then some ServiceKind.osm
  else if ciEq service "MAPQUEST_NOMINATIM" then some ServiceKind.mapquest
  else none

/-- Observable actions of one geocode call, in order: a rate-limit sleep of
a given duration, a cache lookup or insert keyed by a URL, or a network
fetch of a URL starting at a given time. -/
inductive Event where
  | sleep (d : ℚ)
  | cacheLookup (url : String)
  | cacheInsert (url : String)
  | fetch (url : String) (t : ℚ)
deriving DecidableEq, Repr

/-- The open/create/fallback chain of `OGRGeocodeGetCacheLayer` for the
case where no datasource is open yet
(`src/gdal/ogr/ogr_geocoding.cpp:280-353`): open the configured file; if
that fails and it is the default SQLite name, open the default CSV name
(switching the session's cache file name on success); if creation was
requested and the name is not a PG: connection string, look up the driver
for the extension (falling back from the default SQLite name to the CSV
name when that driver is absent) and create the datasource, retrying at an
in-memory `/vsimem/` location when on-disk creation fails for the sqlite
and csv backends. Returns the possibly rewritten file name and the opened
datasource. -/
def openCacheDS (env : OGREnv) (bCreateIfNecessary : Bool) (fn0 : String) :
    String × Option DataSource :=
  let ext0 := CPLGetExtension fn0
  let step1 : String × String × Option DataSource :=
    match env.openDS fn0 with
    | some d => (fn0, ext0, some d)
    | none =>
      if ciEq fn0 DEFAULT_CACHE_SQLITE then
        match env.openDS DEFAULT_CACHE_CSV with
        | some d => (DEFAULT_CACHE_CSV, "csv", some d)
        | none => (fn0, ext0, none)
      else (fn0, ext0, none)
  match step1 with
  | (fn1, _, some d) => (fn1, some d)
  | (fn1, ext1, none) =>
    if bCreateIfNecessary ∧ ¬ startsWithPG fn1 then
      let step2 : String × String × Bool :=
        if env.driverAvailable ext1 then (fn1, ext1, true)
        else if ciEq fn1 DEFAULT_CACHE_SQLITE then
          (DEFAULT_CACHE_CSV, "csv", env.driverAvailable "csv")
        else (fn1, ext1, false)
      match step2 with
      | (fn2, ext2, true) =>
        match env.createDS fn2 with
        | some d => (fn2, some d)
        | none =>
          if ciEq ext2 "SQLITE" ∨ ciEq ext2 "CSV" then
            let fn3 := "/vsimem/" ++ CACHE_LAYER_NAME ++ "." ++ ext2
            (fn3, env.createDS fn3)
          else (fn2, none)
      | (fn2, _, false) => (fn2, none)
    else (fn1, none)

/-- The layer lookup/creation at the end of `OGRGeocodeGetCacheLayer`
(`src/gdal/ogr/ogr_geocoding.cpp:355-392`): use the existing cache layer if
usable; create it (with its `url` and `blob` fields) when requested and
creation succeeds; otherwise fail. -/
def ensureLayer (env : OGREnv) (bCreateIfNecessary : Bool) (ds : DataSource) :
    Bool × DataSource :=
  if ds.hasCacheLayer then (true, ds)
  else if bCreateIfNecessary ∧ env.createLayerOk then (true, ⟨true⟩)
  else (false, ds)

/-- `OGRGeocodeGetCacheLayer` (`src/gdal/ogr/ogr_geocoding.cpp:273-393`):
lazily open or create the cache datasource (possibly rewriting the
session's cache file name along the fallback chain), remember it in the
session, and return whether a usable cache layer was obtained together with
the updated session. -/
def OGRGeocodeGetCacheLayer (env : OGREnv) (hSession : Session)
    (bCreateIfNecessary : Bool) : Bool × Session :=
  match hSession.poDS with
  | some ds =>
    let r := ensureLayer env bCreateIfNecessary ds
    (r.1, { hSession with poDS := some r.2 })
  | none =>
    let od := openCacheDS env bCreateIfNecessary hSession.pszCacheFilename
    match od with
    | (fn', none) => (false, { hSession with pszCacheFilename := fn' })
    | (fn', some ds) =>
      let r := ensureLayer env bCreateIfNecessary ds
      (r.1, { hSession with pszCacheFilename := fn', poDS := some r.2 })

/-- The attribute-filtered scan of `OGRGeocodeGetFromCache`: the body of the
first row whose `url` field equals `url` exactly. -/
def lookupCache (rows : List (String × String)) (url : String) : Option String :=
  (rows.find? (fun p => p.1 = url)).map (·.2)

/-- `OGRGeocodeGetFromCache` (`src/gdal/ogr/ogr_geocoding.cpp:399-423`):
obtain the cache layer without creating it and return the first stored body
for the URL; the URL is the lookup key whether or not the store is
usable. -/
def OGRGeocodeGetFromCache (env : OGREnv) (hSession : Session) (w : World)
    (pszURL : String) : Option String × Session × List Event :=
  let r := OGRGeocodeGetCacheLayer env hSession false
  if r.1 then (lookupCache w.cacheData pszURL, r.2, [Event.cacheLookup pszURL])
  else (none, r.2, [Event.cacheLookup pszURL])

/-- `OGRGeocodePutIntoCache` (`src/gdal/ogr/ogr_geocoding.cpp:429-447`):
obtain the cache layer (creating it if necessary) and append a
`(url, content)` row; no deduplication. -/
def OGRGeocodePutIntoCache (env : OGREnv) (hSession : Session) (w : World)
    (pszURL : String) (pszContent : String) :
    Bool × Session × World × List Event :=
  let r := OGRGeocodeGetCacheLayer env hSession true
  if r.1 then
    (true, r.2, { w with cacheData := w.cacheData ++ [(pszURL, pszContent)] },
     [Event.cacheInsert pszURL])
  else (false, r.2, w, [Event.cacheInsert pszURL])

/-- The fetch phase of `OGRGeocode` (`src/gdal/ogr/ogr_geocoding.cpp:638-670`):
for one of the two built-in service kinds, read that service's last-fetch
timestamp, sleep for the remaining time when the current time is within the
configured minimum delay of it, perform the fetch, and record the
post-fetch current time as the service's last-fetch timestamp; for any
other service kind, fetch with no delay computation, sleep or timestamp
update. The model's clock advances by exactly the slept duration and by
the fetch's duration. -/
def doFetch (env : OGREnv) (hSession : Session) (w : World) (urlFetch : String) :
    Option (Option String) × World × List Event :=
  match rateLimitedService hSession.pszGeocodingService with
  | some svc =>
    let dfLastQueryTime := w.getLast svc
    let dfCurrentTime := w.now
    let sw : World × List Event :=
      if dfCurrentTime < dfLastQueryTime + hSession.dfDelayBetweenQueries then
        ({ w with now := dfLastQueryTime + hSession.dfDelayBetweenQueries },
         [Event.sleep (dfLastQueryTime + hSession.dfDelayBetweenQueries -
                       dfCurrentTime)])
      else (w, [])
    let psResult := env.fetchResult urlFetch
    let tStart := sw.1.now
    let w2 := { sw.1 with now := tStart + env.fetchDuration urlFetch }
    (psResult, w2.setLast svc w2.now, sw.2 ++ [Event.fetch urlFetch tStart])
  | none =>
    let psResult := env.fetchResult urlFetch
    let tStart := w.now
    (psResult, { w with now := tStart + env.fetchDuration urlFetch },
     [Event.fetch urlFetch tStart])

/-- The URL construction of `OGRGeocode`
(`src/gdal/ogr/ogr_geocoding.cpp:611-629`): substitute the URL-escaped
query into the template, append the extra query parameters, and — only for
the OSM_NOMINATIM service with a configured email — build a second,
email-bearing copy. Returns `(osURL, osURLWithEmail)`: the first is the
cache key, the second the URL actually fetched. -/
def geocodeURLs (env : OGREnv) (hSession : Session) (pszQuery : String) :
    String × String :=
  let osURL0 := sprintfPct hSession.pszQueryTemplate (env.escapeURL pszQuery)
  let osURL :=
    match hSession.pszExtraQueryParameters with
    | some extra => osURL0 ++ "&" ++ extra
    | none => osURL0
  let osURLWithEmail :=
    match hSession.pszEmail with
    | some email =>
      if ciEq hSession.pszGeocodingService "OSM_NOMINATIM" then
        osURL ++ "&email=" ++ env.escapeURL email
      else osURL
    | none => osURL
  (osURL, osURLWithEmail)

/-- The cache-miss part of `OGRGeocode`
(`src/gdal/ogr/ogr_geocoding.cpp:636-691`): fetch the email-bearing URL
through the rate limiter; on a failed fetch or an empty body return no
result; otherwise store the body under the email-less cache key when
write-cache is on (best effort) and decode the body. -/
def geocodeFetchPhase (env : OGREnv) (s1 : Session) (w : World)
    (urlKey urlFetch : String) :
    Option ResultLayer × Session × World × List Event :=
  let fr := doFetch env s1 w urlFetch
  match fr.1 with
  | none => (none, s1, fr.2.1, fr.2.2)
  | some none => (none, s1, fr.2.1, fr.2.2)
  | some (some pszResult) =>
    let pw : Bool × Session × World × List Event :=
      if s1.bWriteCache then
        OGRGeocodePutIntoCache env s1 fr.2.1 urlKey pszResult
      else (false, s1, fr.2.1, [])
    (OGRGeocodeBuildLayer env.decode (env.parseXML pszResult),
     pw.2.1, pw.2.2.1, fr.2.2 ++ pw.2.2.2)

/-- The body of `OGRGeocode` for a validated free-text query
(`src/gdal/ogr/ogr_geocoding.cpp:611-698`): build the two URLs, look the
email-less one up in the cache when read-cache is on, decode the stored
body on a hit (no fetch, world untouched), and otherwise run the fetch
phase. -/
def geocodeQuery (env : OGREnv) (hSession : Session) (w : World) (q : String) :
    Option ResultLayer × Session × World × List Event :=
  let urls := geocodeURLs env hSession q
  let cr : Option String × Session × List Event :=
    if hSession.bReadCache then OGRGeocodeGetFromCache env hSession w urls.1
    else (none, hSession, [])
  match cr.1 with
  | some pszCachedResult =>
    (OGRGeocodeBuildLayer env.decode (env.parseXML pszCachedResult),
     cr.2.1, w, cr.2.2)
  | none =>
    let fp := geocodeFetchPhase env cr.2.1 w urls.1 urls.2
    (fp.1, fp.2.1, fp.2.2.1, cr.2.2 ++ fp.2.2.2)

/-- `OGRGeocode` (`src/gdal/ogr/ogr_geocoding.cpp:590-699`): reject calls
that supply neither or both of the query forms, or a structured query;
otherwise run the query body. -/
def OGRGeocode (env : OGREnv) (hSession : Session) (w : World)
    (pszQuery : Option String) (hasStructuredQuery : Bool) :
    Option ResultLayer × Session × World × List Event :=
  if (pszQuery = none ∧ ¬ hasStructuredQuery) ∨
     (pszQuery ≠ none ∧ hasStructuredQuery) then (none, hSession, w, [])
  else if hasStructuredQuery then (none, hSession, w, [])
  else
    match pszQuery with
    | none => (none, hSession, w, [])
    | some q => geocodeQuery env hSession w q

/-- The process-wide configuration (`CPLGetConfigOption`), the numeric
reader `CPLAtofM` used for the DELAY option, and the `GDALVersionInfo`
default application string: the external context of session creation. -/
structure ConfigEnv where
  config : String → Option String
  atofM : String → ℚ
  gdalVersion : String

/-- `CSLFetchNameValue`: first value stored under a key, keys compared
case-insensitively. -/
def CSLFetchNameValue (opts : List (String × String)) (key : String) :
    Option String :=
  (opts.find? (fun p => ciEq p.1 key)).map (·.2)

/-- `OGRGeocodeGetParameter` (`src/gdal/ogr/ogr_geocoding.cpp:76-85`): the
explicit option if present, else the `OGR_GEOCODE_`-prefixed process-wide
configuration value, else the default. -/
def OGRGeocodeGetParameter (env : ConfigEnv) (opts : List (String × String))
    (key : String) (dflt : Option String) : Option String :=
  match CSLFetchNameValue opts key with
  | some v => some v
  | none =>
    match env.config ("OGR_GEOCODE_" ++ key) with
    | some v => some v
    | none => dflt

/-- `OGRGeocodeCreateSession` (`src/gdal/ogr/ogr_geocoding.cpp:169-241`):
resolve every option, reject cache locations that are not CSV, SQLite or
PG:, reject a missing or invalid query template (the hard-coded template of
the two built-in services is the default), and otherwise return the
session with no datasource opened yet. -/
def OGRGeocodeCreateSession (env : ConfigEnv) (opts : List (String × String)) :
    Option Session :=
  let pszCacheFilename :=
    (OGRGeocodeGetParameter env opts "CACHE_FILE" (some DEFAULT_CACHE_SQLITE)).getD ""
  let osExt := CPLGetExtension pszCacheFilename
  if ¬ (startsWithPG pszCacheFilename = true ∨ ciEq osExt "csv" = true ∨
        ciEq osExt "sqlite") then none
  else
    let bReadCache :=
      testBoolean ((OGRGeocodeGetParameter env opts "READ_CACHE" (some "TRUE")).getD "")
    let bWriteCache :=
      testBoolean ((OGRGeocodeGetParameter env opts "WRITE_CACHE" (some "TRUE")).getD "")
    let pszGeocodingService :=
      (OGRGeocodeGetParameter env opts "SERVICE" (some "OSM_NOMINATIM")).getD ""
    let pszEmail := OGRGeocodeGetParameter env opts "EMAIL" none
    let pszApplication :=
      (OGRGeocodeGetParameter env opts "APPLICATION" (some env.gdalVersion)).getD ""
    let dfDelayBetweenQueries :=
      env.atofM ((OGRGeocodeGetParameter env opts "DELAY" (some "1.0")).getD "")
    let pszQueryTemplateDefault :=
      if ciEq pszGeocodingService "OSM_NOMINATIM" then some OSM_NOMINATIM_QUERY
      else if ciEq pszGeocodingService "MAPQUEST_NOMINATIM" then
        some MAPQUEST_NOMINATIM_QUERY
      else none
    match OGRGeocodeGetParameter env opts "QUERY_TEMPLATE" pszQueryTemplateDefault with
    | none => none
    | some pszQueryTemplate =>
      if ¬ OGRGeocodeHasStringValidFormat pszQueryTemplate then none
      else
        some ⟨pszCacheFilename, pszGeocodingService, pszEmail, pszApplication,
              pszQueryTemplate,
              OGRGeocodeGetParameter env opts "EXTRA_QUERY_PARAMETERS" none,
              bReadCache, bWriteCache, dfDelayBetweenQueries, none⟩

/-- The configuration a session carries unchanged through geocode calls:
every field except the cache file name and the lazily-opened datasource
handle. -/
def sessionConfig (s : Session) :
    String × Option String × String × String × Option String × Bool × Bool × ℚ :=
  (s.pszGeocodingService, s.pszEmail, s.pszApplication, s.pszQueryTemplate,
   s.pszExtraQueryParameters, s.bReadCache, s.bWriteCache,
   s.dfDelayBetweenQueries)

/-- The fetches of a trace, as (URL, start time) pairs in order. -/
def fetchEvents (tr : List Event) : List (String × ℚ) :=
  tr.filterMap (fun ev => match ev with
    | Event.fetch u t => some (u, t)
    | _ => none)

/-- The rate-limit sleeps of a trace, in order. -/
def sleepEvents (tr : List Event) : List ℚ :=
  tr.filterMap (fun ev => match ev with
    | Event.sleep d => some d
    | _ => none)

/-- Which URL each kind of event is keyed by: cache lookups and inserts use
`key` (the email-less URL), fetches use `fetchURL` (the email-bearing
copy); sleeps carry no URL. -/
def eventUsesURLs (key fetchURL : String) : Event → Prop
  | Event.cacheLookup u => u = key
  | Event.cacheInsert u => u = key
  | Event.fetch u _ => u = fetchURL
  | Event.sleep _ => True

/-- Whether a node is a place element: `psPlace->eType == CXT_Element &&
strcmp(psPlace->pszValue, "place") == 0`. -/
def isPlaceChild (c : XMLNode) : Bool :=
  decide (c.eType = CXT.element ∧ c.pszValue = "place")

/-- Conclusion of the per-place decoding claim: the decode of a document
whose result container is `sr` succeeds, produces one feature per place
child, zero places giving zero features, and processes the place children
left to right in document order. -/
def decoderPerPlaceProp (env : DecodeEnv) (root sr : XMLNode) : Prop :=
  ∃ l, OGRGeocodeBuildLayer env (some root) = some l ∧
    l.features.length = sr.children.countP isPlaceChild ∧
    (sr.children.countP isPlaceChild = 0 → l.features = []) ∧
    ∀ xs ys, sr.children = xs ++ ys →
      l.features = (processPlaces env xs []).2 ++
        (processPlaces env ys (processPlaces env xs []).1).2

/-- Conclusion of the geotext-discard claim for one place element: the
schema never gains a geotext field, no feature field is named geotext, the
feature's geometry is exactly the coordinate fallback of the first pass,
and the feature is still produced in the layer. -/
def geotextDiscardProp (env : DecodeEnv) (schema : List FieldDefn)
    (p : XMLNode) : Prop :=
  (∀ fd ∈ (processPlace env schema p).1, ciEq fd.name "geotext" = false) ∧
  (∀ kv ∈ (processPlace env schema p).2.fields, kv.1 ≠ "geotext") ∧
  ((processPlace env schema p).2.geometry =
    (let st := placeFirstPass env p.children ⟨schema, false, 0, false, 0⟩
     if st.bFoundLon ∧ st.bFoundLat then
       some (Geometry.point st.dfLon st.dfLat)
     else none)) ∧
  ∀ rest, (processPlaces env (p :: rest) schema).2 =
    (processPlace env schema p).2 ::
      (processPlaces env rest (processPlace env schema p).1).2

/-- A concrete process-wide configuration with nothing set: every option
resolves to its default. -/
def testCfgEnv : ConfigEnv :=
  ⟨fun _ => none, fun _ => 1, "GDAL 1.10dev"⟩

/-- The session `OGRGeocodeCreateSession` builds from empty options under
`testCfgEnv`. -/
def testDefaultSession : Session :=
  ⟨DEFAULT_CACHE_SQLITE, "OSM_NOMINATIM", none, "GDAL 1.10dev",
   OSM_NOMINATIM_QUERY, none, true, true, 1, none⟩

/-- Decimal digits to a number, most significant first. -/
def digitsToNat : List Char → Nat → Nat
  | [], acc => acc
  | c :: rest, acc => digitsToNat rest (acc * 10 + (c.toNat - 48))

/-- A concrete numeric reader for tests: decimal digit strings. -/
def testAtof (v : String) : ℚ := (digitsToNat v.data 0 : ℚ)

/-- A concrete decode environment whose WKT parser rejects everything. -/
def testDecodeEnv : DecodeEnv := ⟨testAtof, fun _ => none⟩

/-- A response document with two places, each carrying `lon`/`lat`
attributes and no `geotext` child. -/
def twoPlaceDoc : XMLNode :=
  .node .element "searchresults" [
    .node .element "place" [
      .node .attribute "lat" [.node .text "1" []],
      .node .attribute "lon" [.node .text "2" []]],
    .node .element "place" [
      .node .attribute "lat" [.node .text "3" []],
      .node .attribute "lon" [.node .text "4" []]]]

/-- A response document whose result container holds no place element. -/
def emptySearchDoc : XMLNode := .node .element "searchresults" []

/-- A place element with `lon`/`lat` attributes and a `geotext` child whose
content is not parseable WKT (under `testDecodeEnv`). -/
def geotextPlaceDoc : XMLNode :=
  .node .element "place" [
    .node .attribute "lat" [.node .text "1" []],
    .node .attribute "lon" [.node .text "2" []],
    .node .element "geotext" [.node .text "POLYGON((" []]]

/-- An environment where the default SQLite cache file cannot be opened but
the sibling CSV file can: the open fallback chain of
`OGRGeocodeGetCacheLayer` then rewrites the session's cache file name. -/
def cexEnv : OGREnv :=
  { openDS := fun fn => if fn = DEFAULT_CACHE_CSV then some ⟨true⟩ else none,
    driverAvailable := fun _ => true,
    createDS := fun _ => none,
    createLayerOk := true,
    parseXML := fun _ => none,
    decode := testDecodeEnv,
    escapeURL := fun s2 => s2,
    fetchResult := fun _ => none,
    fetchDuration := fun _ => 0 }

/-- A session created with the default cache file name and no datasource
opened yet. -/
def cexSession : Session :=
  ⟨DEFAULT_CACHE_SQLITE, "XYZ", none, "app", "%s", none, true, true, 1, none⟩

/-- Conclusion of the rate-limit claim for two back-to-back cache-free
calls on the same built-in service kind `svc`: the first call sleeps
exactly the remaining time when the current time is within the configured
delay of the service's last-fetch timestamp (and not at all otherwise),
performs its one fetch at `t1` — the end of the mandated delay, or the
current time when no sleep was needed — records the post-fetch time
`t1 + duration` as the service's new last-fetch timestamp, and the second
call's one fetch starts at least the configured delay after `t1`. -/
def rateLimitGapProp (env : OGREnv) (s : Session) (w : World) (q : String)
    (svc : ServiceKind) : Prop :=
  sleepEvents (OGRGeocode env s w (some q) false).2.2.2 =
    (if w.now < w.getLast svc + s.dfDelayBetweenQueries
     then [w.getLast svc + s.dfDelayBetweenQueries - w.now] else []) ∧
  ∃ t1, fetchEvents (OGRGeocode env s w (some q) false).2.2.2 =
      [((geocodeURLs env s q).2, t1)] ∧
    t1 = (if w.now < w.getLast svc + s.dfDelayBetweenQueries
          then w.getLast svc + s.dfDelayBetweenQueries else w.now) ∧
    (OGRGeocode env s w (some q) false).2.2.1.getLast svc =
      t1 + env.fetchDuration (geocodeURLs env s q).2 ∧
    ∃ t2, fetchEvents (OGRGeocode env (OGRGeocode env s w (some q) false).2.1
        (OGRGeocode env s w (some q) false).2.2.1 (some q) false).2.2.2 =
      [((geocodeURLs env s q).2, t2)] ∧
      t1 + s.dfDelayBetweenQueries ≤ t2

/-- Conclusion of the identical-second-call claim: the first call returns
the decoded fetched body, and a second call with the same query — run on
the session and world the first call returned — returns the same decoded
output while performing no fetch and no rate-limit sleep. -/
def secondCallCachedProp (env : OGREnv) (s : Session) (w : World)
    (q body : String) : Prop :=
  (OGRGeocode env s w (some q) false).1 =
    OGRGeocodeBuildLayer env.decode (env.parseXML body) ∧
  (OGRGeocode env (OGRGeocode env s w (some q) false).2.1
      (OGRGeocode env s w (some q) false).2.2.1 (some q) false).1 =
    (OGRGeocode env s w (some q) false).1 ∧
  fetchEvents (OGRGeocode env (OGRGeocode env s w (some q) false).2.1
      (OGRGeocode env s w (some q) false).2.2.1 (some q) false).2.2.2 = [] ∧
  sleepEvents (OGRGeocode env (OGRGeocode env s w (some q) false).2.1
      (OGRGeocode env s w (some q) false).2.2.1 (some q) false).2.2.2 = []

/-- A rate-limit test session: OSM_NOMINATIM service, both cache flags
off, delay 1. -/
def rlSession : Session :=
  ⟨DEFAULT_CACHE_SQLITE, "OSM_NOMINATIM", none, "app", "%s", none, false,
   false, 1, none⟩

/-- An environment whose cache store always opens with a usable layer and
whose transport returns a fixed body: the setting of the identical-second-
call witness. -/
def c3Env : OGREnv :=
  { openDS := fun _ => some ⟨true⟩,
    driverAvailable := fun _ => true,
    createDS := fun _ => some ⟨true⟩,
    createLayerOk := true,
    parseXML := fun _ => none,
    decode := testDecodeEnv,
    escapeURL := fun x => x,
    fetchResult := fun _ => some (some "<searchresults/>"),
    fetchDuration := fun _ => 0 }

/-- An OSM_NOMINATIM session with both cache flags on and no datasource
opened yet. -/
def c3Session : Session :=
  ⟨DEFAULT_CACHE_SQLITE, "OSM_NOMINATIM", none, "app", "%s", none, true, true,
   1, none⟩

/-! ## Theorems -/

/-- The scan loop accepts iff the remainder tokenizes and the placeholders
it contains, plus the one already found, come to exactly one. -/
theorem hasValidFormatLoop_iff (l : List Char) (b : Bool) :
    hasValidFormatLoop l b = true ↔
      ∃ toks, tokenizeFmt l = some toks ∧
        toks.count FmtTok.placeholder + (if b then 1 else 0) = 1 := by
  induction l, b using hasValidFormatLoop.induct with
  | _ =>
    simp_all [hasValidFormatLoop, tokenizeFmt, List.count_cons,
      Option.map_eq_some']

/-- The C validator computes exactly the spec's template validity. -/
theorem validator_eq_spec (s : String) :
    OGRGeocodeHasStringValidFormat s = specValidTemplate s := by
  rw [Bool.eq_iff_iff, OGRGeocodeHasStringValidFormat, hasValidFormatLoop_iff]
  unfold specValidTemplate
  rcases ht : tokenizeFmt s.data with _ | toks <;> simp [ht]

/-- Session creation only ever returns a session whose template the
validator accepted. -/
theorem createSession_template_valid (env : ConfigEnv)
    (opts : List (String × String)) (s : Session)
    (h : OGRGeocodeCreateSession env opts = some s) :
    OGRGeocodeHasStringValidFormat s.pszQueryTemplate = true := by
  unfold OGRGeocodeCreateSession at h
  dsimp only at h
  split at h
  · simp at h
  · split at h
    · simp at h
    · split at h
      · simp at h
      · rw [← Option.some_inj.mp h]
        simp_all

/-- C5: the query-template validator accepts a template iff its percent
escapes are well formed (`%%` or `%s` only) and the `%s` placeholder occurs
exactly once — zero placeholders, two or more placeholders, and any other
`%` are rejected — and session creation aborts on rejection: every session
it returns carries an accepted template. -/
theorem template_validator_exactly_one_placeholder :
    (∀ s : String, OGRGeocodeHasStringValidFormat s = specValidTemplate s) ∧
    (∀ env opts s, OGRGeocodeCreateSession env opts = some s →
      OGRGeocodeHasStringValidFormat s.pszQueryTemplate = true) :=
  ⟨validator_eq_spec, createSession_template_valid⟩

/-- Witness for C5 at concrete inputs: the built-in OSM template, and the
session created from empty options, whose template the validator
accepts. -/
theorem template_validator_witness :
    OGRGeocodeHasStringValidFormat OSM_NOMINATIM_QUERY =
      specValidTemplate OSM_NOMINATIM_QUERY ∧
    OGRGeocodeHasStringValidFormat testDefaultSession.pszQueryTemplate = true :=
  ⟨template_validator_exactly_one_placeholder.1 OSM_NOMINATIM_QUERY,
   template_validator_exactly_one_placeholder.2 testCfgEnv [] testDefaultSession
     (by decide)⟩

/-- C8: the response decoder yields no result exactly when XML parsing of
the body failed or the parsed document has no `searchresults` element; when
a container is found it always returns a (possibly empty) record set, so
malformed values inside a valid document never make the decode fail. -/
theorem buildLayer_none_iff_parse_or_container (env : DecodeEnv)
    (parsed : Option XMLNode) :
    OGRGeocodeBuildLayer env parsed = none ↔
      parsed = none ∨
        ∃ r, parsed = some r ∧ searchXMLNode "searchresults" r = none := by
  rcases parsed with _ | r
  · simp [OGRGeocodeBuildLayer]
  · rcases hs : searchXMLNode "searchresults" r with _ | sr <;>
      simp [OGRGeocodeBuildLayer, hs]

/-- C1 (failing input): decoding a document with two places, each carrying
`lon`/`lat` attributes and no `geotext`, gives the first record the point
from its coordinates but leaves the second record with no geometry: the
first pass captures `lat`/`lon` only while it is also creating the schema
field, so for every place after the first the coordinate fallback the
comment above line 543 promises is skipped. -/
theorem buildLayer_second_place_geometry_dropped :
    OGRGeocodeBuildLayer testDecodeEnv (some twoPlaceDoc) =
      some ⟨[⟨"lat", OFT.real⟩, ⟨"lon", OFT.real⟩],
            [⟨[("lat", "1"), ("lon", "2")], some (Geometry.point 2 1)⟩,
             ⟨[("lat", "3"), ("lon", "4")], none⟩]⟩ := by
  have hs : searchXMLNode "searchresults" twoPlaceDoc = some twoPlaceDoc := by
    rw [twoPlaceDoc, searchXMLNode]
    simp [ciEq, lowerStr, lowerChar]
  simp only [OGRGeocodeBuildLayer, hs]
  decide

theorem processPlaces_length (env : DecodeEnv) (children : List XMLNode)
    (schema : List FieldDefn) :
    (processPlaces env children schema).2.length = children.countP isPlaceChild := by
  induction children generalizing schema with
  | nil => simp [processPlaces]
  | cons c rest ih =>
    by_cases hc : c.eType = CXT.element ∧ c.pszValue = "place" <;>
      simp [processPlaces, hc, isPlaceChild, List.countP_cons, ih]

theorem processPlaces_append (env : DecodeEnv) (xs ys : List XMLNode)
    (schema : List FieldDefn) :
    processPlaces env (xs ++ ys) schema =
      ((processPlaces env ys (processPlaces env xs schema).1).1,
       (processPlaces env xs schema).2 ++
         (processPlaces env ys (processPlaces env xs schema).1).2) := by
  induction xs generalizing schema with
  | nil => simp [processPlaces]
  | cons c rest ih =>
    by_cases hc : c.eType = CXT.element ∧ c.pszValue = "place" <;>
      simp [processPlaces, hc, ih]

theorem decoder_one_record_per_place (env : DecodeEnv) (root sr : XMLNode)
    (h : searchXMLNode "searchresults" root = some sr) :
    decoderPerPlaceProp env root sr := by
  refine ⟨⟨(processPlaces env sr.children []).1, (processPlaces env sr.children []).2⟩,
    ?_, ?_, ?_, ?_⟩
  · simp [OGRGeocodeBuildLayer, h]
  · exact processPlaces_length env sr.children []
  · intro h0
    exact List.length_eq_zero.mp (by rw [processPlaces_length, h0])
  · intro xs ys hsplit
    simp only [hsplit, processPlaces_append]

theorem decoder_one_record_per_place_witness :
    decoderPerPlaceProp testDecodeEnv emptySearchDoc emptySearchDoc :=
  decoder_one_record_per_place testDecodeEnv emptySearchDoc emptySearchDoc
    (by rw [emptySearchDoc, searchXMLNode]; simp [ciEq, lowerStr, lowerChar])

theorem setFieldByName_no_geotext (fs : List (String × String)) (name v : String)
    (hn : name ≠ "geotext") (hf : ∀ kv ∈ fs, kv.1 ≠ "geotext") :
    ∀ kv ∈ setFieldByName fs name v, kv.1 ≠ "geotext" := by
  unfold setFieldByName
  split
  · intro kv hkv
    rcases List.mem_map.mp hkv with ⟨p, hp, hpe⟩
    by_cases hci : ciEq p.1 name = true <;> simp [hci] at hpe <;>
      simpa [← hpe] using hf p hp
  · intro kv hkv
    rcases List.mem_append.mp hkv with h1 | h1
    · exact hf kv h1
    · simp at h1; simp [h1, hn]

theorem getFieldIndex_none_of_no_ci (schema : List FieldDefn) (name : String)
    (h : ∀ fd ∈ schema, ciEq fd.name name = false) :
    getFieldIndex schema name = none := by
  unfold getFieldIndex
  rw [List.findIdx?_eq_none_iff]
  intro fd hfd
  simp [h fd hfd]

theorem secondPassStep_geometry (env : DecodeEnv) (schema : List FieldDefn)
    (c : XMLNode) (f : Feature)
    (h : c.pszValue = "geotext" → ((getXMLValue c).bind env.parseWkt) = none) :
    (secondPassStep env schema c f).geometry = f.geometry := by
  unfold secondPassStep
  rcases hidx : getFieldIndex schema c.pszValue with _ | i
  · by_cases hn : c.pszValue = "geotext"
    · have hb := h hn
      rcases hv : getXMLValue c with _ | w
      · simp only [hidx, hn, hv]
        split <;> rfl
      · rw [hv] at hb; simp at hb
        simp only [hidx, hn, hv, hb]
        split <;> rfl
    · simp [hidx, hn]
  · rcases hv : getXMLValue c with _ | w <;> simp [hidx, hv]

theorem placeSecondPass_geometry (env : DecodeEnv) (schema : List FieldDefn)
    (children : List XMLNode) (f : Feature)
    (h : ∀ c ∈ children, c.pszValue = "geotext" →
          ((getXMLValue c).bind env.parseWkt) = none) :
    (placeSecondPass env schema children f).geometry = f.geometry := by
  induction children generalizing f with
  | nil => rfl
  | cons c rest ih =>
    rw [placeSecondPass, ih _ (fun c2 h2 => h c2 (by simp [h2]))]
    exact secondPassStep_geometry env schema c f (h c (by simp))

theorem firstPassStep_schema_shape (env : DecodeEnv) (c : XMLNode) (st : PlaceScan) :
    (firstPassStep env c st).schema = st.schema ∨
    (c.pszValue ≠ "geotext" ∧
      ∃ τ, (firstPassStep env c st).schema = st.schema ++ [⟨c.pszValue, τ⟩]) := by
  unfold firstPassStep
  by_cases h : getFieldIndex st.schema c.pszValue = none ∧ c.pszValue ≠ "geotext"
  · right
    refine ⟨h.2, ?_⟩
    dsimp only
    rw [if_pos h]
    split_ifs with h1 h2 h3
    · exact ⟨OFT.integer, rfl⟩
    · exact ⟨OFT.real, by rcases hv : getXMLValue c with _ | v <;> rfl⟩
    · exact ⟨OFT.real, by rcases hv : getXMLValue c with _ | v <;> rfl⟩
    · exact ⟨OFT.string, rfl⟩
  · left
    simp [h]

theorem placeFirstPass_no_geotext (env : DecodeEnv) (children : List XMLNode)
    (st : PlaceScan)
    (hs : ∀ fd ∈ st.schema, ciEq fd.name "geotext" = false)
    (hc : ∀ c ∈ children, ciEq c.pszValue "geotext" = true → c.pszValue = "geotext") :
    ∀ fd ∈ (placeFirstPass env children st).schema, ciEq fd.name "geotext" = false := by
  induction children generalizing st with
  | nil => simpa [placeFirstPass] using hs
  | cons c rest ih =>
    rw [placeFirstPass]
    apply ih
    · rcases firstPassStep_schema_shape env c st with hsh | ⟨hne, τ, hsh⟩
      · rw [hsh]; exact hs
      · rw [hsh]
        intro fd hfd
        rcases List.mem_append.mp hfd with h1 | h1
        · exact hs fd h1
        · simp at h1
          rw [h1]
        -- fd = ⟨c.pszValue, τ⟩: show ciEq c.pszValue "geotext" = false
          by_contra hcon
          simp at hcon
          exact hne (hc c (by simp) hcon)
    · exact fun c2 h2 => hc c2 (by simp [h2])

theorem secondPassStep_fields_no_geotext (env : DecodeEnv) (schema : List FieldDefn)
    (c : XMLNode) (f : Feature)
    (hg : getFieldIndex schema "geotext" = none)
    (hf : ∀ kv ∈ f.fields, kv.1 ≠ "geotext") :
    ∀ kv ∈ (secondPassStep env schema c f).fields, kv.1 ≠ "geotext" := by
  unfold secondPassStep
  rcases hidx : getFieldIndex schema c.pszValue with _ | i
  · by_cases hn : c.pszValue = "geotext"
    · have hidx2 : getFieldIndex schema "geotext" = none := by
        rw [← hn]; exact hidx
      simp only [hn, hidx2]
      rcases hv : getXMLValue c with _ | w <;> simp only [hv]
      · simpa using hf
      · rcases henv : env.parseWkt w with _ | g <;> simp only [henv]
        · simpa using hf
        · simpa using hf
    · simp only [hidx, if_neg hn]
      exact hf
  · rcases hv : getXMLValue c with _ | w
    · simp only [hidx, hv]
      exact hf
    · simp only [hidx, hv]
      have hcn : c.pszValue ≠ "geotext" := by
        intro he
        rw [he, hg] at hidx
        cases hidx
      exact setFieldByName_no_geotext f.fields c.pszValue w hcn hf

theorem placeSecondPass_fields_no_geotext (env : DecodeEnv)
    (schema : List FieldDefn) (children : List XMLNode) (f : Feature)
    (hg : getFieldIndex schema "geotext" = none)
    (hf : ∀ kv ∈ f.fields, kv.1 ≠ "geotext") :
    ∀ kv ∈ (placeSecondPass env schema children f).fields, kv.1 ≠ "geotext" := by
  induction children generalizing f with
  | nil => simpa [placeSecondPass] using hf
  | cons c rest ih =>
    rw [placeSecondPass]
    exact ih _ (secondPassStep_fields_no_geotext env schema c f hg hf)

theorem geotext_discarded_and_fallback_applies (env : DecodeEnv)
    (schema : List FieldDefn) (p : XMLNode)
    (helem : p.eType = CXT.element) (hplace : p.pszValue = "place")
    (hs : ∀ fd ∈ schema, ciEq fd.name "geotext" = false)
    (hc : ∀ c ∈ p.children, ciEq c.pszValue "geotext" = true →
            c.pszValue = "geotext")
    (hw : ∀ c ∈ p.children, c.pszValue = "geotext" →
            ((getXMLValue c).bind env.parseWkt) = none) :
    geotextDiscardProp env schema p := by
  have hsch := placeFirstPass_no_geotext env p.children
    ⟨schema, false, 0, false, 0⟩ hs hc
  have hgidx : getFieldIndex
      (placeFirstPass env p.children ⟨schema, false, 0, false, 0⟩).schema
      "geotext" = none :=
    getFieldIndex_none_of_no_ci _ _ hsch
  have hgeom := placeSecondPass_geometry env
    (placeFirstPass env p.children ⟨schema, false, 0, false, 0⟩).schema
    p.children ⟨[], none⟩ hw
  have hfields := placeSecondPass_fields_no_geotext env
    (placeFirstPass env p.children ⟨schema, false, 0, false, 0⟩).schema
    p.children ⟨[], none⟩ hgidx (by simp)
  refine ⟨?_, ?_, ?_, ?_⟩
  · simpa [processPlace] using hsch
  · unfold processPlace
    dsimp only
    split
    · exact hfields
    · exact hfields
  · unfold processPlace
    dsimp only
    have hgeom2 : (placeSecondPass env
        (placeFirstPass env p.children ⟨schema, false, 0, false, 0⟩).schema
        p.children ⟨[], none⟩).geometry = none := hgeom
    by_cases hb :
        (placeFirstPass env p.children ⟨schema, false, 0, false, 0⟩).bFoundLon = true ∧
        (placeFirstPass env p.children ⟨schema, false, 0, false, 0⟩).bFoundLat = true
    · rw [if_pos ⟨hgeom2, hb.1, hb.2⟩, if_pos ⟨hb.1, hb.2⟩]
    · rw [if_neg (fun hcon => hb ⟨hcon.2.1, hcon.2.2⟩),
          if_neg (fun hcon => hb ⟨hcon.1, hcon.2⟩)]
      exact hgeom2
  · intro rest
    simp [processPlaces, helem, hplace]

/-- Witness for C10 at a concrete place: `lat`/`lon` attributes plus a
`geotext` child whose content the WKT parser rejects still yield a record
with the coordinate point and no geotext field. -/
theorem geotext_discarded_witness :
    geotextDiscardProp testDecodeEnv [] geotextPlaceDoc :=
  geotext_discarded_and_fallback_applies testDecodeEnv [] geotextPlaceDoc
    rfl rfl (by simp) (by decide) (by decide)

theorem OGRGeocode_some_query (env : OGREnv) (s : Session) (w : World) (q : String) :
    OGRGeocode env s w (some q) false = geocodeQuery env s w q := by
  simp [OGRGeocode]

theorem getCacheLayer_config (env : OGREnv) (s : Session) (b : Bool) :
    sessionConfig (OGRGeocodeGetCacheLayer env s b).2 = sessionConfig s := by
  unfold OGRGeocodeGetCacheLayer
  rcases hds : s.poDS with _ | ds
  · rcases openCacheDS env b s.pszCacheFilename with ⟨fn, _ | ds2⟩ <;>
      simp [sessionConfig]
  · simp [sessionConfig]

theorem getFromCache_config (env : OGREnv) (s : Session) (w : World) (u : String) :
    sessionConfig (OGRGeocodeGetFromCache env s w u).2.1 = sessionConfig s := by
  unfold OGRGeocodeGetFromCache
  dsimp only
  split <;> exact getCacheLayer_config env s false

theorem getFromCache_events (env : OGREnv) (s : Session) (w : World) (u : String) :
    (OGRGeocodeGetFromCache env s w u).2.2 = [Event.cacheLookup u] := by
  unfold OGRGeocodeGetFromCache
  dsimp only
  split <;> rfl

theorem putIntoCache_config (env : OGREnv) (s : Session) (w : World)
    (u c : String) :
    sessionConfig (OGRGeocodePutIntoCache env s w u c).2.1 = sessionConfig s := by
  unfold OGRGeocodePutIntoCache
  dsimp only
  split <;> exact getCacheLayer_config env s true

theorem putIntoCache_events (env : OGREnv) (s : Session) (w : World)
    (u c : String) :
    (OGRGeocodePutIntoCache env s w u c).2.2.2 = [Event.cacheInsert u] := by
  unfold OGRGeocodePutIntoCache
  dsimp only
  split <;> rfl

theorem putIntoCache_world_times (env : OGREnv) (s : Session) (w : World)
    (u c : String) :
    (OGRGeocodePutIntoCache env s w u c).2.2.1.now = w.now ∧
    (OGRGeocodePutIntoCache env s w u c).2.2.1.lastOSM = w.lastOSM ∧
    (OGRGeocodePutIntoCache env s w u c).2.2.1.lastMapQuest = w.lastMapQuest := by
  unfold OGRGeocodePutIntoCache
  dsimp only
  split <;> simp

theorem doFetch_throttled (env : OGREnv) (s : Session) (w : World) (u : String)
    (svc : ServiceKind)
    (h : rateLimitedService s.pszGeocodingService = some svc) :
    doFetch env s w u =
      (env.fetchResult u,
       World.setLast
         { w with now := (if w.now < w.getLast svc + s.dfDelayBetweenQueries
                          then w.getLast svc + s.dfDelayBetweenQueries
                          else w.now) + env.fetchDuration u }
         svc
         ((if w.now < w.getLast svc + s.dfDelayBetweenQueries
           then w.getLast svc + s.dfDelayBetweenQueries
           else w.now) + env.fetchDuration u),
       (if w.now < w.getLast svc + s.dfDelayBetweenQueries
        then [Event.sleep (w.getLast svc + s.dfDelayBetweenQueries - w.now)]
        else []) ++
       [Event.fetch u (if w.now < w.getLast svc + s.dfDelayBetweenQueries
                       then w.getLast svc + s.dfDelayBetweenQueries
                       else w.now)]) := by
  unfold doFetch
  rw [h]
  dsimp only
  split <;> rfl

theorem doFetch_unthrottled (env : OGREnv) (s : Session) (w : World) (u : String)
    (h : rateLimitedService s.pszGeocodingService = none) :
    doFetch env s w u =
      (env.fetchResult u, { w with now := w.now + env.fetchDuration u },
       [Event.fetch u w.now]) := by
  unfold doFetch
  rw [h]

theorem setLast_cacheData (w : World) (svc : ServiceKind) (t : ℚ) :
    (w.setLast svc t).cacheData = w.cacheData := by
  cases svc <;> rfl

theorem doFetch_cacheData (env : OGREnv) (s : Session) (w : World) (u : String) :
    (doFetch env s w u).2.1.cacheData = w.cacheData := by
  unfold doFetch
  rcases h : rateLimitedService s.pszGeocodingService with _ | svc
  · rfl
  · dsimp only
    rw [setLast_cacheData]
    split <;> rfl

theorem fetchEvents_append (a b : List Event) :
    fetchEvents (a ++ b) = fetchEvents a ++ fetchEvents b :=
  List.filterMap_append a b _

theorem sleepEvents_append (a b : List Event) :
    sleepEvents (a ++ b) = sleepEvents a ++ sleepEvents b :=
  List.filterMap_append a b _

theorem fetchPhase_obs (env : OGREnv) (s1 : Session) (w : World)
    (uk uf : String) :
    fetchEvents (geocodeFetchPhase env s1 w uk uf).2.2.2 =
      fetchEvents (doFetch env s1 w uf).2.2 ∧
    sleepEvents (geocodeFetchPhase env s1 w uk uf).2.2.2 =
      sleepEvents (doFetch env s1 w uf).2.2 ∧
    (geocodeFetchPhase env s1 w uk uf).2.2.1.now =
      (doFetch env s1 w uf).2.1.now ∧
    (geocodeFetchPhase env s1 w uk uf).2.2.1.lastOSM =
      (doFetch env s1 w uf).2.1.lastOSM ∧
    (geocodeFetchPhase env s1 w uk uf).2.2.1.lastMapQuest =
      (doFetch env s1 w uf).2.1.lastMapQuest ∧
    sessionConfig (geocodeFetchPhase env s1 w uk uf).2.1 = sessionConfig s1 := by
  unfold geocodeFetchPhase
  dsimp only
  rcases hfr : (doFetch env s1 w uf).1 with _ | ob
  · exact ⟨rfl, rfl, rfl, rfl, rfl, rfl⟩
  · rcases ob with _ | body
    · exact ⟨rfl, rfl, rfl, rfl, rfl, rfl⟩
    · dsimp only
      by_cases hwc : s1.bWriteCache = true
      · rw [if_pos hwc]
        refine ⟨?_, ?_, ?_, ?_, ?_, ?_⟩
        · rw [putIntoCache_events, fetchEvents_append]
          simp [fetchEvents]
        · rw [putIntoCache_events, sleepEvents_append]
          simp [sleepEvents]
        · exact (putIntoCache_world_times env s1 (doFetch env s1 w uf).2.1 uk body).1
        · exact (putIntoCache_world_times env s1 (doFetch env s1 w uf).2.1 uk body).2.1
        · exact (putIntoCache_world_times env s1 (doFetch env s1 w uf).2.1 uk body).2.2
        · exact putIntoCache_config env s1 (doFetch env s1 w uf).2.1 uk body
      · rw [if_neg hwc]
        simp

theorem geocodeQuery_hit (env : OGREnv) (s : Session) (w : World) (q body : String)
    (hrc : s.bReadCache = true)
    (hhit : (OGRGeocodeGetFromCache env s w (geocodeURLs env s q).1).1 = some body) :
    geocodeQuery env s w q =
      (OGRGeocodeBuildLayer env.decode (env.parseXML body),
       (OGRGeocodeGetFromCache env s w (geocodeURLs env s q).1).2.1, w,
       [Event.cacheLookup (geocodeURLs env s q).1]) := by
  unfold geocodeQuery
  dsimp only
  rw [if_pos hrc, hhit, getFromCache_events]

theorem geocodeQuery_nocache (env : OGREnv) (s : Session) (w : World) (q : String)
    (hrc : s.bReadCache = false) :
    geocodeQuery env s w q =
      geocodeFetchPhase env s w (geocodeURLs env s q).1 (geocodeURLs env s q).2 := by
  unfold geocodeQuery
  dsimp only
  rw [hrc]
  simp

theorem geocodeQuery_read_miss (env : OGREnv) (s : Session) (w : World) (q : String)
    (hrc : s.bReadCache = true)
    (hmiss : (OGRGeocodeGetFromCache env s w (geocodeURLs env s q).1).1 = none) :
    geocodeQuery env s w q =
      ((geocodeFetchPhase env (OGRGeocodeGetFromCache env s w (geocodeURLs env s q).1).2.1
          w (geocodeURLs env s q).1 (geocodeURLs env s q).2).1,
       (geocodeFetchPhase env (OGRGeocodeGetFromCache env s w (geocodeURLs env s q).1).2.1
          w (geocodeURLs env s q).1 (geocodeURLs env s q).2).2.1,
       (geocodeFetchPhase env (OGRGeocodeGetFromCache env s w (geocodeURLs env s q).1).2.1
          w (geocodeURLs env s q).1 (geocodeURLs env s q).2).2.2.1,
       Event.cacheLookup (geocodeURLs env s q).1 ::
         (geocodeFetchPhase env (OGRGeocodeGetFromCache env s w (geocodeURLs env s q).1).2.1
            w (geocodeURLs env s q).1 (geocodeURLs env s q).2).2.2.2) := by
  unfold geocodeQuery
  dsimp only
  rw [if_pos hrc, hmiss, getFromCache_events]
  rfl

theorem config_fields {s' s : Session} (h : sessionConfig s' = sessionConfig s) :
    s'.pszGeocodingService = s.pszGeocodingService ∧ s'.pszEmail = s.pszEmail ∧
    s'.pszApplication = s.pszApplication ∧
    s'.pszQueryTemplate = s.pszQueryTemplate ∧
    s'.pszExtraQueryParameters = s.pszExtraQueryParameters ∧
    s'.bReadCache = s.bReadCache ∧ s'.bWriteCache = s.bWriteCache ∧
    s'.dfDelayBetweenQueries = s.dfDelayBetweenQueries := by
  simpa [sessionConfig, Prod.ext_iff] using h

theorem geocodeURLs_congr (env : OGREnv) {s' s : Session} (q : String)
    (h : sessionConfig s' = sessionConfig s) :
    geocodeURLs env s' q = geocodeURLs env s q := by
  obtain ⟨h1, h2, -, h4, h5, -, -, -⟩ := config_fields h
  unfold geocodeURLs
  rw [h1, h2, h4, h5]

theorem World.getLast_setLast (w : World) (svc : ServiceKind) (t : ℚ) :
    (w.setLast svc t).getLast svc = t := by
  cases svc <;> rfl

theorem World.now_setLast (w : World) (svc : ServiceKind) (t : ℚ) :
    (w.setLast svc t).now = w.now := by
  cases svc <;> rfl

theorem doFetch_mem (env : OGREnv) (s : Session) (w : World) (u : String)
    (ev : Event) (h : ev ∈ (doFetch env s w u).2.2) :
    (∃ d, ev = Event.sleep d) ∨ (∃ t, ev = Event.fetch u t) := by
  unfold doFetch at h
  rcases hsvc : rateLimitedService s.pszGeocodingService with _ | svc <;>
    rw [hsvc] at h <;> dsimp only at h
  · simp at h
    right
    exact ⟨_, h⟩
  · rcases List.mem_append.mp h with h1 | h1
    · left
      rcases hlt : (decide (w.now < w.getLast svc + s.dfDelayBetweenQueries)) with _ | _
      · rw [if_neg (by simpa using hlt)] at h1
        simp at h1
      · rw [if_pos (by simpa using hlt)] at h1
        simp at h1
        exact ⟨_, h1⟩
    · right
      simp at h1
      exact ⟨_, h1⟩

theorem fetchPhase_mem (env : OGREnv) (s1 : Session) (w : World)
    (uk uf : String) (ev : Event)
    (h : ev ∈ (geocodeFetchPhase env s1 w uk uf).2.2.2) :
    (∃ d, ev = Event.sleep d) ∨ (∃ t, ev = Event.fetch uf t) ∨
      ev = Event.cacheInsert uk := by
  unfold geocodeFetchPhase at h
  dsimp only at h
  rcases hfr : (doFetch env s1 w uf).1 with _ | ob
  · rw [hfr] at h
    dsimp only at h
    rcases doFetch_mem env s1 w uf ev h with h2 | h2
    · exact Or.inl h2
    · exact Or.inr (Or.inl h2)
  · rcases ob with _ | body <;> rw [hfr] at h <;> dsimp only at h
    · rcases doFetch_mem env s1 w uf ev h with h2 | h2
      · exact Or.inl h2
      · exact Or.inr (Or.inl h2)
    · by_cases hwc : s1.bWriteCache = true
      · rw [if_pos hwc, putIntoCache_events] at h
        rcases List.mem_append.mp h with h1 | h1
        · rcases doFetch_mem env s1 w uf ev h1 with h2 | h2
          · exact Or.inl h2
          · exact Or.inr (Or.inl h2)
        · simp at h1
          exact Or.inr (Or.inr h1)
      · rw [if_neg hwc] at h
        simp at h
        rcases doFetch_mem env s1 w uf ev h with h2 | h2
        · exact Or.inl h2
        · exact Or.inr (Or.inl h2)

theorem lookupCache_append_self (rows : List (String × String)) (u b : String)
    (h : lookupCache rows u = none) :
    lookupCache (rows ++ [(u, b)]) u = some b := by
  unfold lookupCache at h ⊢
  rw [List.find?_append]
  rcases hf : rows.find? (fun p => p.1 = u) with _ | p
  · rw [hf]
    simp [List.find?_cons]
  · rw [hf] at h
    simp at h

theorem getCacheLayer_open_layer (env : OGREnv) (s : Session) (b : Bool)
    (hpo : s.poDS = none)
    (hopen : env.openDS s.pszCacheFilename = some ⟨true⟩) :
    OGRGeocodeGetCacheLayer env s b = (true, { s with poDS := some ⟨true⟩ }) := by
  unfold OGRGeocodeGetCacheLayer
  rw [hpo]
  dsimp only
  unfold openCacheDS
  rw [hopen]
  rfl

theorem getCacheLayer_poDS_layer (env : OGREnv) (s : Session) (b : Bool)
    (hpo : s.poDS = some ⟨true⟩) :
    OGRGeocodeGetCacheLayer env s b = (true, { s with poDS := some ⟨true⟩ }) := by
  unfold OGRGeocodeGetCacheLayer
  rw [hpo]
  rfl

theorem getFromCache_eval (env : OGREnv) (s s' : Session) (w : World) (u : String)
    (h : OGRGeocodeGetCacheLayer env s false = (true, s')) :
    OGRGeocodeGetFromCache env s w u =
      (lookupCache w.cacheData u, s', [Event.cacheLookup u]) := by
  unfold OGRGeocodeGetFromCache
  rw [h]
  rfl

/-- C2: for an OSM_NOMINATIM session with a configured email, the
email-bearing URL used for the fetch is the email-less cache-key URL plus
the escaped email parameter, and the two URLs coincide for any other
service kind or when no email is configured; every cache lookup and insert
event of a geocode call is keyed by the email-less URL while every fetch
uses the email-bearing one, and the cache key does not depend on the
configured email at all. -/
theorem cache_key_is_emailless_url :
    (∀ (env : OGREnv) (s : Session) (q : String) (e1 e2 : Option String),
       (geocodeURLs env { s with pszEmail := e1 } q).1 =
         (geocodeURLs env { s with pszEmail := e2 } q).1) ∧
    (∀ (env : OGREnv) (s : Session) (q em : String),
       s.pszEmail = some em →
       ciEq s.pszGeocodingService "OSM_NOMINATIM" = true →
       (geocodeURLs env s q).2 =
         (geocodeURLs env s q).1 ++ "&email=" ++ env.escapeURL em) ∧
    (∀ (env : OGREnv) (s : Session) (q : String),
       ciEq s.pszGeocodingService "OSM_NOMINATIM" = false ∨ s.pszEmail = none →
       (geocodeURLs env s q).2 = (geocodeURLs env s q).1) ∧
    (∀ (env : OGREnv) (s : Session) (w : World) (q : String),
       ∀ ev ∈ (OGRGeocode env s w (some q) false).2.2.2,
         eventUsesURLs (geocodeURLs env s q).1 (geocodeURLs env s q).2 ev) := by
  refine ⟨?_, ?_, ?_, ?_⟩
  · intro env s q e1 e2
    rfl
  · intro env s q em h1 h2
    unfold geocodeURLs
    rw [h1]
    dsimp only
    rw [if_pos h2]
  · intro env s q h
    unfold geocodeURLs
    dsimp only
    rcases he : s.pszEmail with _ | em
    · rfl
    · dsimp only
      rcases h with h | h
      · rw [if_neg (by rw [h]; simp)]
      · rw [he] at h
        cases h
  · intro env s w q ev hev
    rw [OGRGeocode_some_query] at hev
    have hfetchcase :
        ∀ s1, ev ∈ (geocodeFetchPhase env s1 w (geocodeURLs env s q).1
            (geocodeURLs env s q).2).2.2.2 →
          eventUsesURLs (geocodeURLs env s q).1 (geocodeURLs env s q).2 ev := by
      intro s1 hmem
      rcases fetchPhase_mem env s1 w _ _ ev hmem with ⟨d, hd⟩ | ⟨t, ht⟩ | hi
      · subst hd
        trivial
      · subst ht
        rfl
      · subst hi
        rfl
    rcases hrc : s.bReadCache with _ | _
    · rw [geocodeQuery_nocache env s w q hrc] at hev
      exact hfetchcase s hev
    · rcases hhit : (OGRGeocodeGetFromCache env s w (geocodeURLs env s q).1).1
        with _ | body
      · rw [geocodeQuery_read_miss env s w q hrc hhit] at hev
        rcases List.mem_cons.mp hev with he | he
        · subst he
          rfl
        · exact hfetchcase _ he
      · rw [geocodeQuery_hit env s w q body hrc hhit] at hev
        simp at hev
        subst hev
        rfl

theorem geocodeQuery_config (env : OGREnv) (s : Session) (w : World) (q : String) :
    sessionConfig (geocodeQuery env s w q).2.1 = sessionConfig s := by
  rcases hrc : s.bReadCache with _ | _
  · rw [geocodeQuery_nocache env s w q hrc]
    exact (fetchPhase_obs env s w _ _).2.2.2.2.2
  · rcases hhit : (OGRGeocodeGetFromCache env s w (geocodeURLs env s q).1).1
      with _ | body
    · rw [geocodeQuery_read_miss env s w q hrc hhit]
      exact ((fetchPhase_obs env _ w _ _).2.2.2.2.2).trans
        (getFromCache_config env s w _)
    · rw [geocodeQuery_hit env s w q body hrc hhit]
      exact getFromCache_config env s w _

/-- C6 (amended): every geocode call leaves the session configuration —
service identifier, email, application identifier, query template, extra
query parameters, read/write cache flags and delay — unchanged; only the
lazily-opened cache store handle and the cache file name (which the lazy
open may rewrite along its fallback chain) can differ after a call. -/
theorem geocode_session_config_immutable (env : OGREnv) (s : Session)
    (w : World) (pszQuery : Option String) (hasStructuredQuery : Bool) :
    sessionConfig (OGRGeocode env s w pszQuery hasStructuredQuery).2.1 =
      sessionConfig s := by
  unfold OGRGeocode
  split
  · rfl
  · split
    · rfl
    · rcases pszQuery with _ | q
      · rfl
      · exact geocodeQuery_config env s w q

/-- C6 (counterexample): under `cexEnv` the default SQLite cache file does
not open, so the first geocode call on `cexSession` rewrites the session's
cache location to the CSV fallback — the session is not immutable up to
the store handle alone. -/
theorem session_cache_filename_mutated :
    (OGRGeocode cexEnv cexSession ⟨0, 0, 0, []⟩ (some "q") false).2.1.pszCacheFilename
      ≠ cexSession.pszCacheFilename ∧
    (OGRGeocode cexEnv cexSession ⟨0, 0, 0, []⟩ (some "q") false).2.1.pszCacheFilename
      = DEFAULT_CACHE_CSV := by
  constructor
  · decide
  · decide

/-- C7: exactly the two built-in service kinds are rate limited —
OSM_NOMINATIM and MAPQUEST_NOMINATIM map to their own timestamps and every
other identifier to none — and a geocode call on any other service never
sleeps and never touches either last-fetch timestamp, while (when the
cache is not read) performing its one fetch at the current time with no
delay applied, whatever the configured delay. -/
theorem only_builtin_services_throttled :
    rateLimitedService "OSM_NOMINATIM" = some ServiceKind.osm ∧
    rateLimitedService "MAPQUEST_NOMINATIM" = some ServiceKind.mapquest ∧
    (∀ svcName, ciEq svcName "OSM_NOMINATIM" = false →
       ciEq svcName "MAPQUEST_NOMINATIM" = false →
       rateLimitedService svcName = none) ∧
    (∀ (env : OGREnv) (s : Session) (w : World) (q : String),
       rateLimitedService s.pszGeocodingService = none →
       sleepEvents (OGRGeocode env s w (some q) false).2.2.2 = [] ∧
       (OGRGeocode env s w (some q) false).2.2.1.lastOSM = w.lastOSM ∧
       (OGRGeocode env s w (some q) false).2.2.1.lastMapQuest = w.lastMapQuest) ∧
    (∀ (env : OGREnv) (s : Session) (w : World) (q : String),
       rateLimitedService s.pszGeocodingService = none →
       s.bReadCache = false →
       fetchEvents (OGRGeocode env s w (some q) false).2.2.2 =
         [((geocodeURLs env s q).2, w.now)]) := by
  refine ⟨by decide, by decide, ?_, ?_, ?_⟩
  · intro svcName h1 h2
    unfold rateLimitedService
    rw [h1, h2]
    rfl
  · intro env s w q hsvc
    rw [OGRGeocode_some_query]
    rcases hrc : s.bReadCache with _ | _
    · rw [geocodeQuery_nocache env s w q hrc]
      have hob := fetchPhase_obs env s w (geocodeURLs env s q).1 (geocodeURLs env s q).2
      rw [doFetch_unthrottled env s w _ hsvc] at hob
      refine ⟨?_, ?_, ?_⟩
      · rw [hob.2.1]
        simp [sleepEvents]
      · rw [hob.2.2.2.1]
      · rw [hob.2.2.2.2.1]
    · rcases hhit : (OGRGeocodeGetFromCache env s w (geocodeURLs env s q).1).1
        with _ | body
      · rw [geocodeQuery_read_miss env s w q hrc hhit]
        have hcfg := getFromCache_config env s w (geocodeURLs env s q).1
        have hsvc1 : rateLimitedService
            (OGRGeocodeGetFromCache env s w (geocodeURLs env s q).1).2.1.pszGeocodingService
            = none := by
          rw [(config_fields hcfg).1, hsvc]
        have hob := fetchPhase_obs env
          (OGRGeocodeGetFromCache env s w (geocodeURLs env s q).1).2.1 w
          (geocodeURLs env s q).1 (geocodeURLs env s q).2
        rw [doFetch_unthrottled env _ w _ hsvc1] at hob
        refine ⟨?_, ?_, ?_⟩
        · dsimp only
          rw [sleepEvents, List.filterMap_cons]
          dsimp only
          rw [← sleepEvents, hob.2.1]
          simp [sleepEvents]
        · dsimp only
          rw [hob.2.2.2.1]
        · dsimp only
          rw [hob.2.2.2.2.1]
      · rw [geocodeQuery_hit env s w q body hrc hhit]
        exact ⟨rfl, rfl, rfl⟩
  · intro env s w q hsvc hrc
    rw [OGRGeocode_some_query, geocodeQuery_nocache env s w q hrc]
    have hob := fetchPhase_obs env s w (geocodeURLs env s q).1 (geocodeURLs env s q).2
    rw [doFetch_unthrottled env s w _ hsvc] at hob
    rw [hob.1]
    simp [fetchEvents]

/-- C4: for two consecutive cache-free geocode calls on the same built-in
rate-limited service kind, the first call sleeps exactly the remaining
time whenever the current time is within the configured minimum delay of
the service's last-fetch timestamp, fetches once, records the post-fetch
time as the new last-fetch timestamp, and — provided fetches take
nonnegative time — the second call's fetch starts at least the configured
minimum delay after the first call's fetch. -/
theorem rate_limiter_min_gap (env : OGREnv) (s : Session) (w : World)
    (q : String) (svc : ServiceKind)
    (hsvc : rateLimitedService s.pszGeocodingService = some svc)
    (hrc : s.bReadCache = false)
    (hdur : ∀ u, 0 ≤ env.fetchDuration u) :
    rateLimitGapProp env s w q svc := by
  have hq1 : OGRGeocode env s w (some q) false =
      geocodeFetchPhase env s w (geocodeURLs env s q).1 (geocodeURLs env s q).2 := by
    rw [OGRGeocode_some_query, geocodeQuery_nocache env s w q hrc]
  have hob := fetchPhase_obs env s w (geocodeURLs env s q).1 (geocodeURLs env s q).2
  have hdf := doFetch_throttled env s w (geocodeURLs env s q).2 svc hsvc
  have hevents : (doFetch env s w (geocodeURLs env s q).2).2.2 =
      (if w.now < w.getLast svc + s.dfDelayBetweenQueries
       then [Event.sleep (w.getLast svc + s.dfDelayBetweenQueries - w.now)]
       else []) ++
      [Event.fetch (geocodeURLs env s q).2
        (if w.now < w.getLast svc + s.dfDelayBetweenQueries
         then w.getLast svc + s.dfDelayBetweenQueries else w.now)] := by
    rw [hdf]
  have hworld : (doFetch env s w (geocodeURLs env s q).2).2.1 =
      World.setLast
        { w with now := (if w.now < w.getLast svc + s.dfDelayBetweenQueries
                         then w.getLast svc + s.dfDelayBetweenQueries else w.now) +
                        env.fetchDuration (geocodeURLs env s q).2 }
        svc
        ((if w.now < w.getLast svc + s.dfDelayBetweenQueries
          then w.getLast svc + s.dfDelayBetweenQueries else w.now) +
         env.fetchDuration (geocodeURLs env s q).2) := by
    rw [hdf]
  have hlastfp : (geocodeFetchPhase env s w (geocodeURLs env s q).1
      (geocodeURLs env s q).2).2.2.1.getLast svc =
      (doFetch env s w (geocodeURLs env s q).2).2.1.getLast svc := by
    cases svc
    · exact hob.2.2.2.1
    · exact hob.2.2.2.2.1
  have hgl : (OGRGeocode env s w (some q) false).2.2.1.getLast svc =
      (if w.now < w.getLast svc + s.dfDelayBetweenQueries
       then w.getLast svc + s.dfDelayBetweenQueries else w.now) +
      env.fetchDuration (geocodeURLs env s q).2 := by
    rw [hq1, hlastfp, hworld, World.getLast_setLast]
  refine ⟨?_, (if w.now < w.getLast svc + s.dfDelayBetweenQueries
               then w.getLast svc + s.dfDelayBetweenQueries else w.now),
          ?_, rfl, hgl, ?_⟩
  · rw [hq1, hob.2.1, hevents, sleepEvents_append]
    split <;> simp [sleepEvents]
  · rw [hq1, hob.1, hevents, fetchEvents_append]
    split <;> simp [fetchEvents]
  · -- second call
    have hcfg : sessionConfig (OGRGeocode env s w (some q) false).2.1 =
        sessionConfig s := by
      rw [OGRGeocode_some_query]
      exact geocodeQuery_config env s w q
    obtain ⟨hsvc1, -, -, -, -, hrc1, -, hdelay1⟩ := config_fields hcfg
    have hsvc2 : rateLimitedService
        (OGRGeocode env s w (some q) false).2.1.pszGeocodingService = some svc := by
      rw [hsvc1]
      exact hsvc
    have hrc2 : (OGRGeocode env s w (some q) false).2.1.bReadCache = false := by
      rw [hrc1]
      exact hrc
    have hurls : geocodeURLs env (OGRGeocode env s w (some q) false).2.1 q =
        geocodeURLs env s q := geocodeURLs_congr env q hcfg
    have hq2 : OGRGeocode env (OGRGeocode env s w (some q) false).2.1
        (OGRGeocode env s w (some q) false).2.2.1 (some q) false =
        geocodeFetchPhase env (OGRGeocode env s w (some q) false).2.1
          (OGRGeocode env s w (some q) false).2.2.1
          (geocodeURLs env s q).1 (geocodeURLs env s q).2 := by
      rw [OGRGeocode_some_query,
          geocodeQuery_nocache env _ _ q hrc2, hurls]
    have hob2 := fetchPhase_obs env (OGRGeocode env s w (some q) false).2.1
      (OGRGeocode env s w (some q) false).2.2.1
      (geocodeURLs env s q).1 (geocodeURLs env s q).2
    have hdf2 := doFetch_throttled env (OGRGeocode env s w (some q) false).2.1
      (OGRGeocode env s w (some q) false).2.2.1 (geocodeURLs env s q).2 svc hsvc2
    have hevents2 : (doFetch env (OGRGeocode env s w (some q) false).2.1
        (OGRGeocode env s w (some q) false).2.2.1 (geocodeURLs env s q).2).2.2 =
        (if (OGRGeocode env s w (some q) false).2.2.1.now <
            (OGRGeocode env s w (some q) false).2.2.1.getLast svc +
            (OGRGeocode env s w (some q) false).2.1.dfDelayBetweenQueries
         then [Event.sleep ((OGRGeocode env s w (some q) false).2.2.1.getLast svc +
                (OGRGeocode env s w (some q) false).2.1.dfDelayBetweenQueries -
                (OGRGeocode env s w (some q) false).2.2.1.now)]
         else []) ++
        [Event.fetch (geocodeURLs env s q).2
          (if (OGRGeocode env s w (some q) false).2.2.1.now <
              (OGRGeocode env s w (some q) false).2.2.1.getLast svc +
              (OGRGeocode env s w (some q) false).2.1.dfDelayBetweenQueries
           then (OGRGeocode env s w (some q) false).2.2.1.getLast svc +
                (OGRGeocode env s w (some q) false).2.1.dfDelayBetweenQueries
           else (OGRGeocode env s w (some q) false).2.2.1.now)] := by
      rw [hdf2]
    refine ⟨(if (OGRGeocode env s w (some q) false).2.2.1.now <
              (OGRGeocode env s w (some q) false).2.2.1.getLast svc +
              (OGRGeocode env s w (some q) false).2.1.dfDelayBetweenQueries
           then (OGRGeocode env s w (some q) false).2.2.1.getLast svc +
                (OGRGeocode env s w (some q) false).2.1.dfDelayBetweenQueries
           else (OGRGeocode env s w (some q) false).2.2.1.now), ?_, ?_⟩
    · rw [hq2, hob2.1, hevents2, fetchEvents_append]
      split <;> simp [fetchEvents]
    · have hfd := hdur (geocodeURLs env s q).2
      by_cases hcond : (OGRGeocode env s w (some q) false).2.2.1.now <
          (OGRGeocode env s w (some q) false).2.2.1.getLast svc +
          (OGRGeocode env s w (some q) false).2.1.dfDelayBetweenQueries
      · rw [if_pos hcond]
        linarith [hgl, hdelay1]
      · rw [if_neg hcond]
        linarith [hgl, hdelay1, le_of_not_lt hcond]

/-- Witness for C4 at concrete inputs: an OSM_NOMINATIM session with delay
1 and the clock at the last-fetch time, so the first call must sleep the
full delay. -/
theorem rate_limiter_min_gap_witness :
    rateLimitGapProp cexEnv rlSession ⟨0, 0, 0, []⟩ "Paris" ServiceKind.osm :=
  rate_limiter_min_gap cexEnv rlSession ⟨0, 0, 0, []⟩ "Paris" ServiceKind.osm
    (by decide) rfl (fun _ => le_refl 0)

theorem doFetch_result (env : OGREnv) (s : Session) (w : World) (u : String) :
    (doFetch env s w u).1 = env.fetchResult u := by
  unfold doFetch
  rcases rateLimitedService s.pszGeocodingService <;> rfl

theorem putIntoCache_layer (env : OGREnv) (s : Session) (w : World)
    (u c : String) (hpo : s.poDS = some ⟨true⟩) :
    OGRGeocodePutIntoCache env s w u c =
      (true, { s with poDS := some ⟨true⟩ },
       { w with cacheData := w.cacheData ++ [(u, c)] }, [Event.cacheInsert u]) := by
  unfold OGRGeocodePutIntoCache
  rw [getCacheLayer_poDS_layer env s true hpo]
  rfl

theorem cached_second_call (env : OGREnv) (s : Session) (w : World)
    (q body : String)
    (hrc : s.bReadCache = true) (hwc : s.bWriteCache = true)
    (hpo : s.poDS = none)
    (hopen : env.openDS s.pszCacheFilename = some ⟨true⟩)
    (hmiss : lookupCache w.cacheData (geocodeURLs env s q).1 = none)
    (hfetch : env.fetchResult (geocodeURLs env s q).2 = some (some body)) :
    secondCallCachedProp env s w q body := by
  have hgcl := getCacheLayer_open_layer env s false hpo hopen
  have hgfc := getFromCache_eval env s _ w (geocodeURLs env s q).1 hgcl
  have hhit : (OGRGeocodeGetFromCache env s w (geocodeURLs env s q).1).1 = none := by
    rw [hgfc]
    exact hmiss
  have hs1 : (OGRGeocodeGetFromCache env s w (geocodeURLs env s q).1).2.1 =
      { s with poDS := some ⟨true⟩ } := by
    rw [hgfc]
  have hfp : geocodeFetchPhase env { s with poDS := some (⟨true⟩ : DataSource) } w
      (geocodeURLs env s q).1 (geocodeURLs env s q).2 =
      (OGRGeocodeBuildLayer env.decode (env.parseXML body),
       { s with poDS := some ⟨true⟩ },
       { (doFetch env { s with poDS := some ⟨true⟩ } w (geocodeURLs env s q).2).2.1 with
           cacheData := (doFetch env { s with poDS := some ⟨true⟩ } w
             (geocodeURLs env s q).2).2.1.cacheData ++
             [((geocodeURLs env s q).1, body)] },
       (doFetch env { s with poDS := some ⟨true⟩ } w (geocodeURLs env s q).2).2.2 ++
         [Event.cacheInsert (geocodeURLs env s q).1]) := by
    unfold geocodeFetchPhase
    dsimp only
    rw [doFetch_result, hfetch]
    dsimp only
    rw [if_pos (hwc :
      ({ s with poDS := some (⟨true⟩ : DataSource) } : Session).bWriteCache = true)]
    rw [putIntoCache_layer env _ _ _ _ rfl]
  have hr1 : OGRGeocode env s w (some q) false =
      (OGRGeocodeBuildLayer env.decode (env.parseXML body),
       { s with poDS := some ⟨true⟩ },
       { (doFetch env { s with poDS := some ⟨true⟩ } w (geocodeURLs env s q).2).2.1 with
           cacheData := (doFetch env { s with poDS := some ⟨true⟩ } w
             (geocodeURLs env s q).2).2.1.cacheData ++
             [((geocodeURLs env s q).1, body)] },
       Event.cacheLookup (geocodeURLs env s q).1 ::
         ((doFetch env { s with poDS := some ⟨true⟩ } w (geocodeURLs env s q).2).2.2 ++
          [Event.cacheInsert (geocodeURLs env s q).1])) := by
    rw [OGRGeocode_some_query, geocodeQuery_read_miss env s w q hrc hhit, hs1, hfp]
  have hlook2 : lookupCache
      ({ (doFetch env { s with poDS := some ⟨true⟩ } w (geocodeURLs env s q).2).2.1 with
          cacheData := (doFetch env { s with poDS := some ⟨true⟩ } w
            (geocodeURLs env s q).2).2.1.cacheData ++
            [((geocodeURLs env s q).1, body)] } : World).cacheData
      (geocodeURLs env s q).1 = some body := by
    dsimp only
    rw [doFetch_cacheData]
    exact lookupCache_append_self _ _ _ hmiss
  have hgcl2 := getCacheLayer_poDS_layer env
    { s with poDS := some (⟨true⟩ : DataSource) } false rfl
  have hgfc2 := getFromCache_eval env { s with poDS := some (⟨true⟩ : DataSource) } _
    { (doFetch env { s with poDS := some ⟨true⟩ } w (geocodeURLs env s q).2).2.1 with
        cacheData := (doFetch env { s with poDS := some ⟨true⟩ } w
          (geocodeURLs env s q).2).2.1.cacheData ++
          [((geocodeURLs env s q).1, body)] }
    (geocodeURLs env s q).1 hgcl2
  have hhit2 : (OGRGeocodeGetFromCache env { s with poDS := some (⟨true⟩ : DataSource) }
      { (doFetch env { s with poDS := some ⟨true⟩ } w (geocodeURLs env s q).2).2.1 with
          cacheData := (doFetch env { s with poDS := some ⟨true⟩ } w
            (geocodeURLs env s q).2).2.1.cacheData ++
            [((geocodeURLs env s q).1, body)] }
      (geocodeURLs env s q).1).1 = some body := by
    rw [hgfc2]
    exact hlook2
  have hrc2 : ({ s with poDS := some (⟨true⟩ : DataSource) } : Session).bReadCache
      = true := hrc
  have hq2 := geocodeQuery_hit env { s with poDS := some (⟨true⟩ : DataSource) }
    { (doFetch env { s with poDS := some ⟨true⟩ } w (geocodeURLs env s q).2).2.1 with
        cacheData := (doFetch env { s with poDS := some ⟨true⟩ } w
          (geocodeURLs env s q).2).2.1.cacheData ++
          [((geocodeURLs env s q).1, body)] }
    q body hrc2 hhit2
  refine ⟨?_, ?_, ?_, ?_⟩
  · rw [hr1]
  · rw [hr1, OGRGeocode_some_query, hq2]
  · rw [hr1, OGRGeocode_some_query, hq2]
    rfl
  · rw [hr1, OGRGeocode_some_query, hq2]
    rfl

theorem cache_hit_decodes_without_fetch (env : OGREnv) (s : Session) (w : World)
    (q body : String)
    (hrc : s.bReadCache = true)
    (hhit : (OGRGeocodeGetFromCache env s w (geocodeURLs env s q).1).1 = some body) :
    (OGRGeocode env s w (some q) false).1 =
      OGRGeocodeBuildLayer env.decode (env.parseXML body) ∧
    (OGRGeocode env s w (some q) false).2.2.1 = w ∧
    fetchEvents (OGRGeocode env s w (some q) false).2.2.2 = [] ∧
    sleepEvents (OGRGeocode env s w (some q) false).2.2.2 = [] := by
  rw [OGRGeocode_some_query, geocodeQuery_hit env s w q body hrc hhit]
  exact ⟨rfl, rfl, rfl, rfl⟩

/-- C3: a geocode call with read-cache on whose lookup returns a stored
body decodes it and returns with the world (rate-limit timestamps
included) untouched and no fetch or sleep in its trace; and for two
identical-query calls with read- and write-cache on — over a usable cache
store, a first-lookup miss and a fetch that returns a body — the second
call performs no fetch and no sleep and returns the same decoded output
as the first. -/
theorem cache_hit_no_fetch_no_ratelimit :
    (∀ (env : OGREnv) (s : Session) (w : World) (q body : String),
       s.bReadCache = true →
       (OGRGeocodeGetFromCache env s w (geocodeURLs env s q).1).1 = some body →
       (OGRGeocode env s w (some q) false).1 =
         OGRGeocodeBuildLayer env.decode (env.parseXML body) ∧
       (OGRGeocode env s w (some q) false).2.2.1 = w ∧
       fetchEvents (OGRGeocode env s w (some q) false).2.2.2 = [] ∧
       sleepEvents (OGRGeocode env s w (some q) false).2.2.2 = []) ∧
    (∀ (env : OGREnv) (s : Session) (w : World) (q body : String),
       s.bReadCache = true → s.bWriteCache = true → s.poDS = none →
       env.openDS s.pszCacheFilename = some ⟨true⟩ →
       lookupCache w.cacheData (geocodeURLs env s q).1 = none →
       env.fetchResult (geocodeURLs env s q).2 = some (some body) →
       secondCallCachedProp env s w q body) :=
  ⟨cache_hit_decodes_without_fetch, cached_second_call⟩

/-- Witness for C3 at concrete inputs: both calls on `c3Session` under
`c3Env`, the second served from the cache. -/
theorem cache_hit_no_fetch_witness :
    secondCallCachedProp c3Env c3Session ⟨0, 0, 0, []⟩ "Paris" "<searchresults/>" :=
  cache_hit_no_fetch_no_ratelimit.2 c3Env c3Session ⟨0, 0, 0, []⟩ "Paris"
    "<searchresults/>" rfl rfl rfl rfl rfl rfl

end GdalGeocode
